import Mathlib

/-!
# Verification of the CPCL label-printing core

Shallow embedding of the double-barcode label printing system
(frontend/src/printing/* and frontend/src/tabs/ScanPrintTab.tsx) and proofs
about it.

Modelling conventions:
* JavaScript numbers are idealised as rationals (`ℚ`).  Where a source
  function explicitly defends against `NaN`/`Infinity` (`clampScale`,
  `calculateBarcodeHeight`), its argument is modelled by `JSNum`, a rational
  extended with `nan`, `posInf` and `negInf`; IEEE rounding/overflow of
  ordinary arithmetic is not modelled.
* `bigint` settings fields are modelled as `ℤ` (the code converts them with
  `Number(...)`, exact for label-sized values).
* Strings are Lean `String`s (lists of characters); `String.prototype.length`
  is modelled as the character count, `startsWith` as a character-list
  isPrefixOf check, and `toUpperCase` as ASCII uppercasing.
* Template-literal interpolation of an integral number is modelled by decimal
  printing (`intToStr`); every number interpolated by the generator is an
  integer (a `Math.round`/`Math.ceil` result or an integer literal).
* `new Map(entries)` is modelled by `jsMapOf`, which replays the insertion
  semantics of a JS `Map` (later duplicate keys overwrite in place);
  `Map.prototype.get` is `List.lookup` on the result and iteration is in
  list order, matching JS insertion-order iteration.
* Logging (`addLog`) and sounds are pure effects: the scan state machine
  returns an `Effects` record collecting them; the leaf generator functions
  drop their log-only branches (logging never changes a result there).
-/

/-- A JavaScript number: a finite rational or one of the special values. -/
inductive JSNum where
  | nan
  | posInf
  | negInf
  | fin (q : ℚ)
deriving DecidableEq, Repr

/-- `Math.round` for finite doubles: round half toward positive infinity. -/
def jsRound (q : ℚ) : ℤ := ⌊q + 1/2⌋

/-- `Math.ceil` for finite doubles. -/
def jsCeil (q : ℚ) : ℤ := ⌈q⌉

/-- JavaScript multiplication on `JSNum`, with IEEE special-value rules
(`NaN` propagates, `±∞ × 0 = NaN`, signs multiply); finite overflow to
infinity is not modelled. -/
def jsMul : JSNum → JSNum → JSNum
  | .nan, _ => .nan
  | _, .nan => .nan
  | .posInf, .posInf => .posInf
  | .posInf, .negInf => .negInf
  | .negInf, .posInf => .negInf
  | .negInf, .negInf => .posInf
  | .posInf, .fin q => if q = 0 then .nan else if 0 < q then .posInf else .negInf
  | .negInf, .fin q => if q = 0 then .nan else if 0 < q then .negInf else .posInf
  | .fin q, .posInf => if q = 0 then .nan else if 0 < q then .posInf else .negInf
  | .fin q, .negInf => if q = 0 then .nan else if 0 < q then .negInf else .posInf
  | .fin a, .fin b => .fin (a * b)

/-! ## previewUnits.ts -/

/-- `DPI = 203` (source: previewUnits.ts). -/
def DPI : ℚ := 203

/-- `MM_PER_INCH = 25.4` (source: previewUnits.ts). -/
def MM_PER_INCH : ℚ := 25.4

/-- `mmToDots(mm) = Math.round((mm / 25.4) * 203)` (source: previewUnits.ts). -/
def mmToDots (mm : ℚ) : ℤ := jsRound (mm / MM_PER_INCH * DPI)

/-! ## Decimal printing of integral numbers (template-literal interpolation) -/

/-- The decimal digit character for `n % 10`. -/
def digitChar (n : ℕ) : Char :=
  match n % 10 with
  | 0 => '0' | 1 => '1' | 2 => '2' | 3 => '3' | 4 => '4'
  | 5 => '5' | 6 => '6' | 7 => '7' | 8 => '8' | _ => '9'

/-- Decimal digit list of a natural number (most significant first). -/
def natToChars (n : ℕ) : List Char :=
  if _h : n < 10 then [digitChar n]
  else natToChars (n / 10) ++ [digitChar (n % 10)]
termination_by n
decreasing_by exact Nat.div_lt_self (by omega) (by omega)

/-- Decimal string of an integer, as a JS template literal prints an
integral number. -/
def intToStr (n : ℤ) : String :=
  if n < 0 then "-" ++ String.mk (natToChars n.natAbs)
  else String.mk (natToChars n.natAbs)

/-! ## Newline joining and splitting

`lines.join('\n')` and line recovery (splitting the produced document on
`'\n'`), modelled at the character-list level. -/

/-- `Array.prototype.join('\n')`. -/
def joinLines : List String → String
  | [] => ""
  | [l] => l
  | l :: ls => l ++ "\n" ++ joinLines ls

/-- Split a character list at every `'\n'`. -/
def splitNLc : List Char → List (List Char)
  | [] => [[]]
  | c :: cs =>
    match splitNLc cs with
    | [] => [[]]
    | l :: ls => if c = '\n' then [] :: l :: ls else (c :: l) :: ls

/-- The lines of a string: split its characters at every `'\n'`. -/
def splitNL (s : String) : List String := (splitNLc s.data).map String.mk

/-- A string free of the line-breaking character. -/
def noNL (s : String) : Prop := ∀ c ∈ s.data, c ≠ '\n'

/-- A string free of CR and LF (the claim's side condition on serials and
title). -/
def noCRLF (s : String) : Prop := ∀ c ∈ s.data, c ≠ '\r' ∧ c ≠ '\n'

theorem noNL_append {a b : String} (ha : noNL a) (hb : noNL b) : noNL (a ++ b) := by
  intro c hc
  rw [String.data_append, List.mem_append] at hc
  rcases hc with h | h
  · exact ha c h
  · exact hb c h

theorem noNL_of_noCRLF {s : String} (h : noCRLF s) : noNL s :=
  fun c hc => (h c hc).2

theorem digitChar_ne_nl (n : ℕ) : digitChar n ≠ '\n' := by
  unfold digitChar
  split <;> decide

theorem mem_natToChars {c : Char} {n : ℕ} (h : c ∈ natToChars n) :
    ∃ k, c = digitChar k := by
  induction n using Nat.strong_induction_on with
  | _ n ih =>
    rw [natToChars] at h
    split at h
    · simp only [List.mem_singleton] at h
      exact ⟨n, h⟩
    · rw [List.mem_append, List.mem_singleton] at h
      rcases h with h | h
      · exact ih (n / 10) (Nat.div_lt_self (by omega) (by omega)) h
      · exact ⟨n % 10, h⟩

theorem noNL_intToStr (n : ℤ) : noNL (intToStr n) := by
  intro c hc
  unfold intToStr at hc
  have digits : ∀ m : ℕ, c ∈ natToChars m → c ≠ '\n' := by
    intro m hm
    obtain ⟨k, rfl⟩ := mem_natToChars hm
    exact digitChar_ne_nl k
  split at hc
  · rw [String.data_append] at hc
    rcases List.mem_append.1 hc with h | h
    · simp only [show ("-" : String).data = ['-'] from rfl, List.mem_singleton] at h
      subst h; decide
    · exact digits _ h
  · exact digits _ hc

theorem splitNLc_ne_nil (cs : List Char) : splitNLc cs ≠ [] := by
  induction cs with
  | nil => simp [splitNLc]
  | cons c cs ih =>
    rw [splitNLc]
    rcases h : splitNLc cs with _ | ⟨l, ls⟩
    · simp
    · simp only [h]
      split <;> simp

theorem splitNLc_append_noNL {l : List Char} (hl : ∀ c ∈ l, c ≠ '\n') (cs : List Char) :
    splitNLc (l ++ cs) =
      match splitNLc cs with
      | [] => [l]
      | m :: ms => (l ++ m) :: ms := by
  induction l with
  | nil =>
    rcases h : splitNLc cs with _ | ⟨m, ms⟩
    · exact absurd h (splitNLc_ne_nil cs)
    · simp [h]
  | cons c l ih =>
    have hc : c ≠ '\n' := hl c (List.mem_cons_self _ _)
    have hl' : ∀ c ∈ l, c ≠ '\n' := fun x hx => hl x (List.mem_cons_of_mem _ hx)
    rcases h : splitNLc cs with _ | ⟨m, ms⟩
    · exact absurd h (splitNLc_ne_nil cs)
    · have hrec : splitNLc (l ++ cs) = (l ++ m) :: ms := by rw [ih hl', h]
      simp only [List.cons_append, splitNLc, List.append_eq, hrec, if_neg hc]

theorem data_joinLines (ls : List String) :
    (joinLines ls).data = (match ls with
      | [] => []
      | [l] => l.data
      | l :: ls => l.data ++ '\n' :: (joinLines ls).data) := by
  match ls with
  | [] => rfl
  | [l] => rfl
  | l :: l' :: ls =>
    show (l ++ "\n" ++ joinLines (l' :: ls)).data = _
    rw [String.data_append, String.data_append]
    simp

theorem splitNL_joinLines (ls : List String) (hne : ls ≠ [])
    (h : ∀ l ∈ ls, noNL l) : splitNL (joinLines ls) = ls := by
  induction ls with
  | nil => exact absurd rfl hne
  | cons l ls ih =>
    match ls with
    | [] =>
      have hl : ∀ c ∈ l.data, c ≠ '\n' := h l (List.mem_cons_self _ _)
      have : splitNLc l.data = [l.data] := by
        have := splitNLc_append_noNL hl []
        simpa [splitNLc] using this
      simp [splitNL, joinLines, this]
    | l' :: ls' =>
      have hl : ∀ c ∈ l.data, c ≠ '\n' := h l (List.mem_cons_self _ _)
      have hrest : ∀ x ∈ l' :: ls', noNL x := fun x hx => h x (List.mem_cons_of_mem _ hx)
      have ihr : splitNL (joinLines (l' :: ls')) = l' :: ls' := ih (by simp) hrest
      have hdata : (joinLines (l :: l' :: ls')).data =
          l.data ++ '\n' :: (joinLines (l' :: ls')).data := data_joinLines _
      have hsplit : splitNLc (joinLines (l :: l' :: ls')).data =
          l.data :: splitNLc (joinLines (l' :: ls')).data := by
        rw [hdata, splitNLc_append_noNL hl]
        have hstep : splitNLc ('\n' :: (joinLines (l' :: ls')).data) =
            [] :: splitNLc (joinLines (l' :: ls')).data := by
          rw [splitNLc]
          rcases hh : splitNLc (joinLines (l' :: ls')).data with _ | ⟨m, ms⟩
          · exact absurd hh (splitNLc_ne_nil _)
          · simp
        rw [hstep]
        rcases hh : splitNLc (joinLines (l' :: ls')).data with _ | ⟨m, ms⟩
        · exact absurd hh (splitNLc_ne_nil _)
        · simp
      unfold splitNL
      rw [hsplit]
      simp only [List.map_cons]
      have ihr' : List.map String.mk (splitNLc (joinLines (l' :: ls')).data) = l' :: ls' := ihr
      rw [ihr']

/-! ## cpclBarcodeMapping.ts -/

/-- A CPCL barcode symbology mapping entry. -/
structure BarcodeMapping where
  cpclToken : String
  displayName : String
  recommendedWidth : ℤ
  recommendedRatio : ℤ
deriving DecidableEq, Repr

/-- The eight known-good mappings, in source order (keys of the
`BARCODE_MAPPINGS` record). -/
def BARCODE_MAPPINGS : List (String × BarcodeMapping) :=
  [ ("CODE128", { cpclToken := "128", displayName := "Code 128",
                  recommendedWidth := 2, recommendedRatio := 1 }),
    ("CODE39", { cpclToken := "39", displayName := "Code 39",
                 recommendedWidth := 2, recommendedRatio := 1 }),
    ("EAN13", { cpclToken := "EAN13", displayName := "EAN-13",
                recommendedWidth := 2, recommendedRatio := 1 }),
    ("EAN8", { cpclToken := "EAN8", displayName := "EAN-8",
               recommendedWidth := 2, recommendedRatio := 1 }),
    ("UPCA", { cpclToken := "UPCA", displayName := "UPC-A",
               recommendedWidth := 2, recommendedRatio := 1 }),
    ("UPCE", { cpclToken := "UPCE", displayName := "UPC-E",
               recommendedWidth := 2, recommendedRatio := 1 }),
    ("I2OF5", { cpclToken := "I2OF5", displayName := "Interleaved 2 of 5",
                recommendedWidth := 2, recommendedRatio := 1 }),
    ("CODABAR", { cpclToken := "CODABAR", displayName := "Codabar",
                  recommendedWidth := 2, recommendedRatio := 1 }) ]

/-- `FALLBACK_MAPPING` for unknown barcode types. -/
def FALLBACK_MAPPING : BarcodeMapping :=
  { cpclToken := "128", displayName := "Code 128 (Fallback)",
    recommendedWidth := 2, recommendedRatio := 1 }

/-- ASCII uppercasing of one character (model of the effect of
`String.prototype.toUpperCase` on ASCII text). -/
def upChar (c : Char) : Char :=
  if 'a' ≤ c ∧ c ≤ 'z' then Char.ofNat (c.toNat - 32) else c

/-- `uiType.toUpperCase()` (ASCII model). -/
def toUpperCase (s : String) : String := String.mk (s.data.map upChar)

/-- `getBarcodeMapping(uiType)` (source: cpclBarcodeMapping.ts): record
lookup keyed on the upper-cased name, with the fallback on a miss. -/
def getBarcodeMapping (uiType : String) : BarcodeMapping :=
  match BARCODE_MAPPINGS.lookup (toUpperCase uiType) with
  | none => FALLBACK_MAPPING
  | some mapping => mapping

/-- `isBarcodeTypeSupported(uiType)` (source: cpclBarcodeMapping.ts). -/
def isBarcodeTypeSupported (uiType : String) : Bool :=
  (BARCODE_MAPPINGS.lookup (toUpperCase uiType)).isSome

/-! ## cpclLayoutAdjustments.ts -/

/-- The `BarcodeAdjustment` result record. -/
structure BarcodeAdjustment where
  originalX : ℚ
  adjustedX : ℤ
  barcodeIndex : ℕ
  wasClamped : Bool
deriving DecidableEq, Repr

/-- `calculateLeftAlignedBarcodeX` (source: cpclLayoutAdjustments.ts):
clamp the requested X into `[minMargin, max(minMargin, labelWidth -
barcodeWidth - minMargin)]`, report whether the clamp moved the position by
more than half a dot, and round the clamped position. -/
def calculateLeftAlignedBarcodeX (barcodeWidthDots labelWidthDots requestedX : ℚ)
    (barcodeIndex : ℕ) : BarcodeAdjustment :=
  let minMargin : ℚ := 5
  let minX := minMargin
  let maxX := max minMargin (labelWidthDots - barcodeWidthDots - minMargin)
  let clampedX := max minX (min maxX requestedX)
  let wasClamped := decide ((1 : ℚ)/2 < |clampedX - requestedX|)
  { originalX := requestedX
    adjustedX := jsRound clampedX
    barcodeIndex := barcodeIndex
    wasClamped := wasClamped }

/-- `estimateBarcodeWidthDots` (source: cpclLayoutAdjustments.ts). -/
def estimateBarcodeWidthDots (dataLength width ratio : ℚ) : ℤ :=
  let startModules : ℚ := 11
  let dataModules : ℚ := dataLength * 11
  let checkModules : ℚ := 11
  let stopModules : ℚ := 13
  let quietZoneModules : ℚ := 20
  let totalModules := startModules + dataModules + checkModules + stopModules + quietZoneModules
  let ratioMultiplier : ℚ := 2 + ratio * 0.5
  let avgModuleWidth := width * (1 + ratioMultiplier) / 2
  jsCeil (totalModules * avgModuleWidth)

/-- Modelled from the spec: the reference definition of
`computeLeftAlignedX` (spec §4.4) read literally as claim C4 states it,
with `wasClamped` computed from the **rounded** `adjustedX`. -/
def specComputeLeftAlignedX (estimatedWidthDots labelWidthDots requestedXDots : ℚ)
    (barcodeIndex : ℕ) : BarcodeAdjustment :=
  let minMarginDots : ℚ := 5
  let minX := minMarginDots
  let maxX := max minMarginDots (labelWidthDots - estimatedWidthDots - minMarginDots)
  let adjustedX := jsRound (min maxX (max minX requestedXDots))
  { originalX := requestedXDots
    adjustedX := adjustedX
    barcodeIndex := barcodeIndex
    wasClamped := decide ((1 : ℚ)/2 < |(adjustedX : ℚ) - requestedXDots|) }

/-- Modelled from the spec: the reference definition of
`computeLeftAlignedX` (spec §4.4), amended so that `wasClamped` is computed
from the clamped but **unrounded** position. -/
def specComputeLeftAlignedXPreRound (estimatedWidthDots labelWidthDots requestedXDots : ℚ)
    (barcodeIndex : ℕ) : BarcodeAdjustment :=
  let minMarginDots : ℚ := 5
  let minX := minMarginDots
  let maxX := max minMarginDots (labelWidthDots - estimatedWidthDots - minMarginDots)
  let clamped := min maxX (max minX requestedXDots)
  { originalX := requestedXDots
    adjustedX := jsRound clamped
    barcodeIndex := barcodeIndex
    wasClamped := decide ((1 : ℚ)/2 < |clamped - requestedXDots|) }

/-! ## cpclGenerator.ts: leaf helpers -/

/-- `clampScale(scale, elementName)` (source: cpclGenerator.ts): round, and
replace a non-positive or non-finite rounding result by 1.  The result of
the source function is always an integral number, so the model returns `ℤ`
directly.  The log-only branches are dropped. -/
def clampScale (scale : JSNum) : ℤ :=
  match scale with
  | .fin q => let rounded := jsRound q; if rounded ≤ 0 then 1 else rounded
  | _ => 1

/-- `calculateBarcodeHeight(heightMm, scale, ...)` (source:
cpclGenerator.ts): `mmToDots(heightMm * scale)` with the fixed fallback of
60 dots when that is non-positive or non-finite.  The result of the source
function is always an integral number, so the model returns `ℤ`; the
log-only branches (`addLog`, `validateBarcodeHeight`) are dropped. -/
def calculateBarcodeHeight (heightMm scale : JSNum) : ℤ :=
  match jsMul heightMm scale with
  | .fin q => let heightDots := mmToDots q; if heightDots ≤ 0 then 60 else heightDots
  | _ => 60

/-! ## Settings data model (backend.d.ts / labelSettingsStore.ts) -/

/-- A `PrefixMapping` record: `{ title, labelType }`. -/
structure PrefixMapping where
  title : String
  labelType : String
deriving DecidableEq, Repr

/-- A `LayoutSettings` record; `x`, `y`, `height`, `width`, `fontSize` are
`bigint` in the backend interface and `scale` is a `number`. -/
structure LayoutSettings where
  x : ℤ
  y : ℤ
  height : ℤ
  scale : JSNum
  width : ℤ
  fontSize : ℤ
deriving DecidableEq, Repr

/-- `LabelSettings` (backend interface), extended with the optional
calibration offsets of `ExtendedLabelSettings`. -/
structure LabelSettings where
  widthMm : ℤ
  heightMm : ℤ
  spacing : ℤ
  barcodeHeight : ℤ
  barcodeType : String
  prefixMappings : List (String × PrefixMapping)
  titleLayout : LayoutSettings
  barcode1Layout : LayoutSettings
  serialText1Layout : LayoutSettings
  barcode2Layout : LayoutSettings
  serialText2Layout : LayoutSettings
  calibrationOffsetXmm : Option ℚ
  calibrationOffsetYmm : Option ℚ
deriving DecidableEq, Repr

/-! ## JS `Map` built from an entry list -/

/-- One `Map.prototype.set` step: overwrite in place if the key is present,
else append. -/
def mapSet (entries : List (String × PrefixMapping)) (k : String) (v : PrefixMapping) :
    List (String × PrefixMapping) :=
  if entries.any (fun e => e.1 == k) then
    entries.map (fun e => if e.1 == k then (k, v) else e)
  else
    entries ++ [(k, v)]

/-- `new Map(entries)`: replay the entries through `mapSet`; the resulting
list is the map's entry list in JS iteration order. -/
def jsMapOf (entries : List (String × PrefixMapping)) : List (String × PrefixMapping) :=
  entries.foldl (fun acc e => mapSet acc e.1 e.2) []

/-! ## cpclGenerator.ts: generateCPCL -/

/-- The title resolution inside `generateCPCL`:
`new Map(settings.prefixMappings).get(prefixArg)?.title || 'Label'`. -/
def resolveTitle (entries : List (String × PrefixMapping)) (prefixArg : String) : String :=
  match (jsMapOf entries).lookup prefixArg with
  | some mapping => if mapping.title = "" then "Label" else mapping.title
  | none => "Label"

/-- `generateCPCL` (source: cpclGenerator.ts, lines 171–367): the `lines`
array pushed by the source, in push order.  Numeric interpolations are
printed with `intToStr`; every interpolated number is integral.  The
log-only and diagnostics-only calls (`validateBarcodeData`,
`validateBarcodePosition`, `logBarcodeGeneration`, `addLog`) are dropped;
they do not contribute lines. -/
def generateCPCLLines (settings : LabelSettings)
    (leftSerial rightSerial prefixArg : String) : List String :=
  let title := resolveTitle settings.prefixMappings prefixArg
  let widthDots := mmToDots (settings.widthMm : ℚ)
  let heightDots := mmToDots (settings.heightMm : ℚ)
  let offsetXmm := settings.calibrationOffsetXmm.getD 0
  let offsetYmm := settings.calibrationOffsetYmm.getD 0
  let barcodeMapping := getBarcodeMapping settings.barcodeType
  let barcodeWidth := barcodeMapping.recommendedWidth
  let barcodeRatio := barcodeMapping.recommendedRatio
  let titleX := mmToDots ((settings.titleLayout.x : ℚ) + offsetXmm)
  let titleY := mmToDots ((settings.titleLayout.y : ℚ) + offsetYmm)
  let titleScaleX := clampScale settings.titleLayout.scale
  let titleScaleY := clampScale settings.titleLayout.scale
  let barcode1Height :=
    calculateBarcodeHeight (.fin (settings.barcode1Layout.height : ℚ)) settings.barcode1Layout.scale
  let barcode1WidthEstimate :=
    estimateBarcodeWidthDots (leftSerial.data.length : ℚ) (barcodeWidth : ℚ) (barcodeRatio : ℚ)
  let barcode1RequestedX := mmToDots ((settings.barcode1Layout.x : ℚ) + offsetXmm)
  let barcode1Adjustment :=
    calculateLeftAlignedBarcodeX (barcode1WidthEstimate : ℚ) (widthDots : ℚ)
      (barcode1RequestedX : ℚ) 1
  let barcode1X := barcode1Adjustment.adjustedX
  let barcode1Y := mmToDots ((settings.barcode1Layout.y : ℚ) + offsetYmm)
  let serial1X := mmToDots ((settings.serialText1Layout.x : ℚ) + offsetXmm)
  let serial1Y := mmToDots ((settings.serialText1Layout.y : ℚ) + offsetYmm)
  let serial1ScaleX := clampScale settings.serialText1Layout.scale
  let serial1ScaleY := clampScale settings.serialText1Layout.scale
  let barcode2Height :=
    calculateBarcodeHeight (.fin (settings.barcode2Layout.height : ℚ)) settings.barcode2Layout.scale
  let barcode2WidthEstimate :=
    estimateBarcodeWidthDots (rightSerial.data.length : ℚ) (barcodeWidth : ℚ) (barcodeRatio : ℚ)
  let barcode2RequestedX := mmToDots ((settings.barcode2Layout.x : ℚ) + offsetXmm)
  let barcode2Adjustment :=
    calculateLeftAlignedBarcodeX (barcode2WidthEstimate : ℚ) (widthDots : ℚ)
      (barcode2RequestedX : ℚ) 2
  let barcode2X := barcode2Adjustment.adjustedX
  let barcode2Y := mmToDots ((settings.barcode2Layout.y : ℚ) + offsetYmm)
  let serial2X := mmToDots ((settings.serialText2Layout.x : ℚ) + offsetXmm)
  let serial2Y := mmToDots ((settings.serialText2Layout.y : ℚ) + offsetYmm)
  let serial2ScaleX := clampScale settings.serialText2Layout.scale
  let serial2ScaleY := clampScale settings.serialText2Layout.scale
  [ "! 0 200 200 " ++ intToStr heightDots ++ " 1",
    "PAGE-WIDTH " ++ intToStr widthDots,
    "SETMAG " ++ intToStr titleScaleX ++ " " ++ intToStr titleScaleY,
    "TEXT 4 0 " ++ intToStr titleX ++ " " ++ intToStr titleY ++ " " ++ title,
    "SETMAG 1 1",
    "BARCODE " ++ barcodeMapping.cpclToken ++ " " ++ intToStr barcodeWidth ++ " " ++
      intToStr barcodeRatio ++ " " ++ intToStr barcode1Height ++ " " ++ intToStr barcode1X ++
      " " ++ intToStr barcode1Y ++ " " ++ leftSerial,
    "SETMAG " ++ intToStr serial1ScaleX ++ " " ++ intToStr serial1ScaleY,
    "TEXT 7 0 " ++ intToStr serial1X ++ " " ++ intToStr serial1Y ++ " " ++ leftSerial,
    "SETMAG 1 1",
    "BARCODE " ++ barcodeMapping.cpclToken ++ " " ++ intToStr barcodeWidth ++ " " ++
      intToStr barcodeRatio ++ " " ++ intToStr barcode2Height ++ " " ++ intToStr barcode2X ++
      " " ++ intToStr barcode2Y ++ " " ++ rightSerial,
    "SETMAG " ++ intToStr serial2ScaleX ++ " " ++ intToStr serial2ScaleY,
    "TEXT 7 0 " ++ intToStr serial2X ++ " " ++ intToStr serial2Y ++ " " ++ rightSerial,
    "SETMAG 1 1",
    "PRINT" ]

/-- `generateCPCL` returns `lines.join('\n')`. -/
def generateCPCL (settings : LabelSettings)
    (leftSerial rightSerial prefixArg : String) : String :=
  joinLines (generateCPCLLines settings leftSerial rightSerial prefixArg)

/-! ## serialNormalization.ts -/

/-- The whitespace characters removed by `String.prototype.trim` (ASCII
model: space, tab, LF, VT, FF, CR). -/
def isTrimWS (c : Char) : Bool :=
  c == ' ' || c == '\t' || c == '\n' || c == '\x0b' || c == '\x0c' || c == '\r'

/-- `serial.trim()` (ASCII whitespace model). -/
def jsTrim (s : String) : String :=
  String.mk (((s.data.dropWhile isTrimWS).reverse.dropWhile isTrimWS).reverse)

/-- `normalizeSerial` (source: serialNormalization.ts): trim, then strip a
trailing run of CR/LF/Tab (`replace(/[\r\n\t]+$/g, '')`). -/
def normalizeSerial (serial : String) : String :=
  let normalized := jsTrim serial
  String.mk
    ((normalized.data.reverse.dropWhile (fun c => c == '\r' || c == '\n' || c == '\t')).reverse)

/-! ## labelTypes.ts -/

/-- One entry of `BUILT_IN_LABEL_TYPES`. -/
structure LabelTypeInfo where
  value : String
  displayName : String
  isBuiltIn : Bool
deriving DecidableEq, Repr

/-- `BUILT_IN_LABEL_TYPES` (source: labelTypes.ts). -/
def BUILT_IN_LABEL_TYPES : List LabelTypeInfo :=
  [ { value := "dualBand", displayName := "Dual Band", isBuiltIn := true },
    { value := "triBand", displayName := "Tri Band", isBuiltIn := true },
    { value := "newDualBand", displayName := "New Dual Band", isBuiltIn := true } ]

/-- ASCII uppercase letter test (the regex class `[A-Z]`). -/
def isAsciiUpper (c : Char) : Bool := 'A' ≤ c && c ≤ 'Z'

/-- `labelType.split(/(?=[A-Z])/)`: split before every ASCII uppercase
character, never producing a leading empty piece. -/
def splitBeforeUpperAux : List Char → List Char → List (List Char)
  | [], acc => [acc.reverse]
  | c :: cs, acc =>
    if isAsciiUpper c ∧ acc ≠ [] then acc.reverse :: splitBeforeUpperAux cs [c]
    else splitBeforeUpperAux cs (c :: acc)

/-- `word.charAt(0).toUpperCase() + word.slice(1)`. -/
def capitalizeWord : List Char → List Char
  | [] => []
  | c :: cs => upChar c :: cs

/-- `getLabelTypeDisplayName` (source: labelTypes.ts): built-in display
name, or capitalised camel-case words joined by spaces. -/
def getLabelTypeDisplayName (labelType : String) : String :=
  match BUILT_IN_LABEL_TYPES.find? (fun t => t.value == labelType) with
  | some t => t.displayName
  | none =>
    String.mk
      (List.intercalate [' ']
        ((splitBeforeUpperAux labelType.data []).map capitalizeWord))

/-! ## scanPrintErrors.ts -/

/-- `sub` occurs somewhere in `s` (JS `String.prototype.includes`). -/
def containsStr (s sub : String) : Bool := decide (sub.data <:+: s.data)

/-- `formatPrinterError` (source: scanPrintErrors.ts in labelTypes-adjacent
utilities): the transport error is modelled by its message string. -/
def formatPrinterError (errorMessage : String) : String :=
  if containsStr errorMessage "not connected" || containsStr errorMessage "disconnected" then
    "Printer not connected"
  else if containsStr errorMessage "USB" || containsStr errorMessage "WebUSB" then
    "USB communication error"
  else if containsStr errorMessage "Bluetooth" then
    "Bluetooth communication error"
  else
    "Failed to send to printer"

/-! ## ScanPrintTab.tsx: the scan & print state machine -/

/-- Per-field validation state. -/
inductive FieldValidation where
  | idle
  | success
  | error
deriving DecidableEq, Repr

/-- The component state of `ScanPrintTab` that the handlers read and
write. -/
structure ScanState where
  leftSerial : String
  rightSerial : String
  detectedType : Option String
  detectedPrefix : Option String
  leftValidation : FieldValidation
  rightValidation : FieldValidation
  errorMessage : String
  backendNotice : String
  step : ℕ
  isPrinting : Bool
  lastCompletedLeft : String
  lastCompletedRight : String
deriving DecidableEq, Repr

/-- A print-history entry (`addPrintHistory` payload, without the wall-clock
timestamp). -/
structure PrintHistoryEntry where
  historyPrefix : String
  leftSerial : String
  rightSerial : String
  labelType : String
  cpcl : String
  success : Bool
deriving DecidableEq, Repr

/-- The externally observable side effects of one handler run: sounds
played, log lines appended, counters incremented, history entries recorded
and backend submissions attempted. -/
structure Effects where
  sounds : List String := []
  logs : ℕ := 0
  scans : ℕ := 0
  typeScans : List (String × String) := []
  prints : ℕ := 0
  typePrints : List (String × String) := []
  errors : ℕ := 0
  history : List PrintHistoryEntry := []
  submits : ℕ := 0
deriving DecidableEq, Repr

/-- The empty effect record. -/
def Effects.empty : Effects := {}

/-- `getPrefixMapping(serial)` (source: ScanPrintTab.tsx): iterate the Map
built from `settings.prefixMappings` in insertion order and return the
first entry whose key is a string-prefix of the serial. -/
def getPrefixMapping (settings : LabelSettings) (serial : String) :
    Option (String × PrefixMapping) :=
  (jsMapOf settings.prefixMappings).find? (fun e => e.1.data.isPrefixOf serial.data)

/-- `resetForm` (source: ScanPrintTab.tsx). -/
def resetFormState : ScanState :=
  { leftSerial := ""
    rightSerial := ""
    detectedType := none
    detectedPrefix := none
    leftValidation := .idle
    rightValidation := .idle
    errorMessage := ""
    backendNotice := ""
    step := 1
    isPrinting := false
    lastCompletedLeft := ""
    lastCompletedRight := "" }

/-- `validateAndProcessLeftSerial` (source: ScanPrintTab.tsx, lines
79–118).  The deferred `setStep(2)` (a 100 ms `setTimeout`) is modelled as
part of the same transition. -/
def processLeftSerial (settings : LabelSettings) (st : ScanState) (value : String) :
    ScanState × Effects :=
  let normalized := normalizeSerial value
  if normalized = st.lastCompletedLeft then (st, Effects.empty)
  else if normalized.data.length < 3 then (st, Effects.empty)
  else
    let st1 : ScanState :=
      { st with
        lastCompletedLeft := normalized
        leftSerial := if normalized ≠ value then normalized else st.leftSerial }
    match getPrefixMapping settings normalized with
    | none =>
      ({ st1 with leftValidation := .error, errorMessage := "Unknown prefix" },
       { sounds := ["error"], logs := 1, errors := 1 })
    | some (prefixKey, mapping) =>
      ({ st1 with
          detectedType := some mapping.labelType
          detectedPrefix := some prefixKey
          leftValidation := .success
          step := 2 },
       { sounds := ["success"], logs := 1, scans := 1,
         typeScans := [(prefixKey, mapping.labelType)] })

/-- `validateAndProcessRightSerial` (source: ScanPrintTab.tsx, lines
120–243).  The async printer transport call is modelled by its outcome
`printerResult`; the fire-and-forget backend submission is counted by the
`submits` effect (its own outcome only adds a log line afterwards and never
changes the state, so it is not a parameter). -/
def processRightSerial (settings : LabelSettings) (isConnected : Bool)
    (printerResult : Except String Unit)
    (st : ScanState) (value : String) : ScanState × Effects :=
  if st.isPrinting then (st, Effects.empty)
  else
    let normalized := normalizeSerial value
    if normalized = st.lastCompletedRight then (st, Effects.empty)
    else
      match st.detectedPrefix, st.detectedType with
      | some detectedPrefix, some detectedType =>
        if normalized.data.length < 3 then (st, Effects.empty)
        else
          let st1 : ScanState :=
            { st with
              lastCompletedRight := normalized
              rightSerial := if normalized ≠ value then normalized else st.rightSerial }
          match getPrefixMapping settings normalized with
          | none =>
            ({ st1 with rightValidation := .error, errorMessage := "Unknown prefix" },
             { sounds := ["error"], logs := 1, errors := 1 })
          | some (_, mapping) =>
            if mapping.labelType ≠ detectedType then
              ({ st1 with
                  rightValidation := .error
                  errorMessage := "Label type mismatch: expected " ++
                    getLabelTypeDisplayName detectedType ++ ", got " ++
                    getLabelTypeDisplayName mapping.labelType },
               { sounds := ["error"], logs := 1, errors := 1 })
            else if !isConnected then
              ({ st1 with rightValidation := .error, errorMessage := "Printer not connected" },
               { sounds := ["error"], logs := 1, errors := 1 })
            else
              let st2 : ScanState :=
                { st1 with
                    rightValidation := .success
                    isPrinting := true
                    errorMessage := ""
                    backendNotice := "" }
              let normalizedLeft := normalizeSerial st.leftSerial
              let cpcl := generateCPCL settings normalizedLeft normalized detectedPrefix
              match printerResult with
              | .ok _ =>
                (resetFormState,
                 { sounds := ["success", "printComplete"]
                   logs := 2
                   scans := 1
                   typeScans := [(detectedPrefix, detectedType)]
                   prints := 1
                   typePrints := [(detectedPrefix, detectedType)]
                   history := [{ historyPrefix := detectedPrefix
                                 leftSerial := normalizedLeft
                                 rightSerial := normalized
                                 labelType := detectedType
                                 cpcl := cpcl
                                 success := true }]
                   submits := 1 })
              | .error printerError =>
                ({ st2 with
                    rightValidation := .error
                    errorMessage := formatPrinterError printerError
                    isPrinting := false },
                 { sounds := ["success", "error"]
                   logs := 1
                   scans := 1
                   typeScans := [(detectedPrefix, detectedType)]
                   errors := 1 })
      | _, _ => (st, Effects.empty)

/-! ## Claim theorems -/

theorem mem_of_lookup_eq_some {β : Type} {l : List (String × β)} {k : String} {v : β}
    (h : l.lookup k = some v) : (k, v) ∈ l := by
  induction l with
  | nil => simp [List.lookup] at h
  | cons e es ih =>
    rcases e with ⟨k', v'⟩
    rw [List.lookup_cons] at h
    by_cases hk : (k == k') = true
    · simp only [hk] at h
      obtain rfl : v' = v := by injection h
      obtain rfl : k = k' := by exact eq_of_beq hk
      exact List.mem_cons_self _ _
    · simp only [Bool.not_eq_true] at hk
      simp only [hk] at h
      exact List.mem_cons_of_mem _ (ih h)

/-- C5: `estimateBarcodeWidthDots(n, w, r)` equals
`ceil(totalModules × avgModuleWidth)` with
`totalModules = 11 + 11·n + 11 + 13 + 20` (start + data + check digit +
stop + quiet zones) and `avgModuleWidth = w × (1 + (2.0 + 0.5·r)) / 2`. -/
theorem c5_estimateBarcodeWidth (n w r : ℚ) :
    estimateBarcodeWidthDots n w r =
      jsCeil ((11 + 11 * n + 11 + 13 + 20) * (w * (1 + (2 + 0.5 * r)) / 2)) := by
  have harg : (11 + n * 11 + 11 + 13 + 20) * (w * (1 + (2 + r * 0.5)) / 2)
      = (11 + 11 * n + 11 + 13 + 20) * (w * (1 + (2 + 0.5 * r)) / 2) := by ring
  show (⌈(11 + n * 11 + 11 + 13 + 20) * (w * (1 + (2 + r * 0.5)) / 2)⌉ : ℤ) =
    jsCeil ((11 + 11 * n + 11 + 13 + 20) * (w * (1 + (2 + 0.5 * r)) / 2))
  unfold jsCeil
  rw [harg]

/-- C7: `calculateBarcodeHeight` returns `mmToDots(heightMm × scale)` when
that is positive and finite, and the fixed fallback of 60 dots otherwise
(zero, negative, NaN or infinite product included); the result is always
positive (and, being an integer, finite), and the function is total. -/
theorem c7_calculateBarcodeHeight (heightMm scale : JSNum) :
    calculateBarcodeHeight heightMm scale =
      (match jsMul heightMm scale with
       | JSNum.fin q => if 0 < mmToDots q then mmToDots q else 60
       | _ => 60) ∧
    0 < calculateBarcodeHeight heightMm scale := by
  cases h : jsMul heightMm scale with
  | fin q =>
    simp only [calculateBarcodeHeight, h]
    constructor
    · split_ifs <;> omega
    · split_ifs <;> omega
  | nan =>
    refine ⟨by simp only [calculateBarcodeHeight, h], ?_⟩
    simp only [calculateBarcodeHeight, h]
    norm_num
  | posInf =>
    refine ⟨by simp only [calculateBarcodeHeight, h], ?_⟩
    simp only [calculateBarcodeHeight, h]
    norm_num
  | negInf =>
    refine ⟨by simp only [calculateBarcodeHeight, h], ?_⟩
    simp only [calculateBarcodeHeight, h]
    norm_num

/-- C9: `clampScale` returns `Math.round(scale)` when that is positive and
finite, and 1 otherwise (NaN, ±∞, zero, negative, and fractions rounding
to 0 included); the result is always a positive integer. -/
theorem c9_clampScale (scale : JSNum) :
    clampScale scale =
      (match scale with
       | JSNum.fin q => if 0 < jsRound q then jsRound q else 1
       | _ => 1) ∧
    0 < clampScale scale := by
  cases scale with
  | fin q =>
    simp only [clampScale]
    constructor
    · split_ifs <;> omega
    · split_ifs <;> omega
  | nan => exact ⟨rfl, by decide⟩
  | posInf => exact ⟨rfl, by decide⟩
  | negInf => exact ⟨rfl, by decide⟩

/-- C6: `getBarcodeMapping` is total (always one of the table's mapping
records or the fixed fallback), the lookup is keyed on the upper-cased name
(case-insensitive), and an unsupported name yields the fallback mapping
whose printer token is CODE128's `"128"`. -/
theorem c6_getBarcodeMapping (s t : String) :
    (getBarcodeMapping s = FALLBACK_MAPPING ∨
      (toUpperCase s, getBarcodeMapping s) ∈ BARCODE_MAPPINGS) ∧
    (toUpperCase s = toUpperCase t → getBarcodeMapping s = getBarcodeMapping t) ∧
    (isBarcodeTypeSupported s = false → getBarcodeMapping s = FALLBACK_MAPPING) ∧
    FALLBACK_MAPPING.cpclToken = "128" := by
  refine ⟨?_, ?_, ?_, rfl⟩
  · unfold getBarcodeMapping
    cases h : BARCODE_MAPPINGS.lookup (toUpperCase s) with
    | none => exact Or.inl rfl
    | some m => exact Or.inr (mem_of_lookup_eq_some h)
  · intro he
    unfold getBarcodeMapping
    rw [he]
  · intro hs
    unfold isBarcodeTypeSupported at hs
    unfold getBarcodeMapping
    cases h : BARCODE_MAPPINGS.lookup (toUpperCase s) with
    | none => rfl
    | some m => rw [h] at hs; simp at hs

/-- Witness for C6 at concrete inputs: a lower-case supported name is
mapped like its upper-cased form, and an unsupported name gets the
fallback. -/
theorem c6_witness :
    (toUpperCase "code128" = toUpperCase "CODE128" ∧
      getBarcodeMapping "code128" = getBarcodeMapping "CODE128") ∧
    (isBarcodeTypeSupported "qr-code" = false ∧
      getBarcodeMapping "qr-code" = FALLBACK_MAPPING) :=
  ⟨⟨by decide, (c6_getBarcodeMapping "code128" "CODE128").2.1 (by decide)⟩,
   ⟨by decide, (c6_getBarcodeMapping "qr-code" "qr-code").2.2.1 (by decide)⟩⟩

theorem jsRound_mono {a b : ℚ} (h : a ≤ b) : jsRound a ≤ jsRound b :=
  Int.floor_le_floor (by linarith)

theorem jsRound_intCast (n : ℤ) : jsRound (n : ℚ) = n := by
  unfold jsRound
  rw [Int.floor_int_add]
  norm_num

/-- C3 (amended: the barcode width estimate and label width are integer dot
counts, as the generator always passes — `Math.ceil` and `mmToDots`
results): whenever `estimatedWidthDots < labelWidthDots - 2·minMargin`
(minMargin = 5), the adjusted X keeps the whole estimated width inside the
margins for every requested X and barcode index. -/
theorem c3_clampContainment (e L : ℤ) (x : ℚ) (i : ℕ) (h : e < L - 2 * 5) :
    5 ≤ (calculateLeftAlignedBarcodeX (e : ℚ) (L : ℚ) x i).adjustedX ∧
    (calculateLeftAlignedBarcodeX (e : ℚ) (L : ℚ) x i).adjustedX + e ≤ L - 5 := by
  have hadj : (calculateLeftAlignedBarcodeX (e : ℚ) (L : ℚ) x i).adjustedX
      = jsRound (max 5 (min (max 5 ((L : ℚ) - (e : ℚ) - 5)) x)) := rfl
  have hQ : (5 : ℚ) ≤ (L : ℚ) - (e : ℚ) - 5 := by
    have : (e : ℚ) < (L : ℚ) - 10 := by exact_mod_cast (by omega : e < L - 10)
    linarith
  have hmaxeq : max (5 : ℚ) ((L : ℚ) - (e : ℚ) - 5) = (L : ℚ) - (e : ℚ) - 5 :=
    max_eq_right hQ
  have hcast : (L : ℚ) - (e : ℚ) - 5 = ((L - e - 5 : ℤ) : ℚ) := by push_cast; ring
  constructor
  · rw [hadj]
    have h5 : jsRound ((5 : ℤ) : ℚ) = 5 := jsRound_intCast 5
    have : jsRound ((5 : ℤ) : ℚ) ≤ jsRound (max 5 (min (max 5 ((L : ℚ) - (e : ℚ) - 5)) x)) := by
      apply jsRound_mono
      have : ((5 : ℤ) : ℚ) = (5 : ℚ) := by norm_num
      rw [this]
      exact le_max_left _ _
    omega
  · rw [hadj]
    have hle : max (5 : ℚ) (min (max 5 ((L : ℚ) - (e : ℚ) - 5)) x)
        ≤ (L : ℚ) - (e : ℚ) - 5 := by
      apply max_le hQ
      calc min (max 5 ((L : ℚ) - (e : ℚ) - 5)) x ≤ max 5 ((L : ℚ) - (e : ℚ) - 5) :=
            min_le_left _ _
        _ = (L : ℚ) - (e : ℚ) - 5 := hmaxeq
    have hr : jsRound (max 5 (min (max 5 ((L : ℚ) - (e : ℚ) - 5)) x))
        ≤ jsRound (((L - e - 5 : ℤ) : ℚ)) := by
      apply jsRound_mono
      rw [← hcast]
      exact hle
    rw [jsRound_intCast] at hr
    omega

/-- Witness for C3 at a concrete input: estimate 50 dots on a 100-dot
label, requested X 7. -/
theorem c3_witness :
    ((50 : ℤ) < 100 - 2 * 5) ∧
    (5 ≤ (calculateLeftAlignedBarcodeX ((50 : ℤ) : ℚ) ((100 : ℤ) : ℚ) 7 1).adjustedX ∧
      (calculateLeftAlignedBarcodeX ((50 : ℤ) : ℚ) ((100 : ℤ) : ℚ) 7 1).adjustedX + 50 ≤ 100 - 5) :=
  ⟨by decide, c3_clampContainment 50 100 7 1 (by decide)⟩

/-- C3 counterexample: for the fractional estimated width 89.5 on a 100-dot
label the claim's premise `89.5 < 100 - 2·5` holds, but rounding the
clamped position up to 6 puts the right edge at 95.5, past
`labelWidthDots - minMargin = 95`.  So the claim is false for
non-integer inputs. -/
theorem c3_counterexample :
    ((179 : ℚ)/2 < 100 - 2 * 5) ∧
    ¬ (((calculateLeftAlignedBarcodeX ((179 : ℚ)/2) 100 50 1).adjustedX : ℚ) + (179 : ℚ)/2
        ≤ 100 - 5) := by
  constructor
  · norm_num
  · have hadj : (calculateLeftAlignedBarcodeX ((179 : ℚ)/2) 100 50 1).adjustedX
        = jsRound (max 5 (min (max 5 ((100 : ℚ) - 179/2 - 5)) 50)) := rfl
    have e1 : (100 : ℚ) - 179/2 - 5 = 11/2 := by norm_num
    have e2 : max (5 : ℚ) (11/2) = 11/2 := max_eq_right (by norm_num)
    have e3 : min ((11 : ℚ)/2) 50 = 11/2 := min_eq_left (by norm_num)
    have e4 : jsRound ((11 : ℚ)/2) = 6 := by unfold jsRound; norm_num
    rw [hadj, e1, e2, e3, e2, e4]
    norm_num

/-- C4 (amended: `wasClamped` is computed from the clamped but unrounded
position, `|clampedX − requestedX| > 0.5`; the two readings agree whenever
`maxX` is an integer, in particular for the integer widths the generator
passes): `calculateLeftAlignedBarcodeX` equals the spec's reference
definition with `minMarginDots = 5`. -/
theorem c4_referenceDefinition (w L x : ℚ) (i : ℕ) :
    calculateLeftAlignedBarcodeX w L x i = specComputeLeftAlignedXPreRound w L x i := by
  unfold calculateLeftAlignedBarcodeX specComputeLeftAlignedXPreRound
  have key : max (5 : ℚ) (min (max 5 (L - w - 5)) x)
      = min (max 5 (L - w - 5)) (max 5 x) := by
    rw [max_min_distrib_left, max_eq_right (le_max_left 5 (L - w - 5))]
  simp only [key]

/-- C4 counterexample: at estimated width 88.7, label width 100 and
requested X 6.7 the source reports `wasClamped = false` (the clamp moved
the position by only 0.4 dots) while the claim's post-rounding reading
reports `true` (rounding 6.3 to 6 puts the adjusted X 0.7 dots from the
request), so the claim as stated is false. -/
theorem c4_counterexample :
    calculateLeftAlignedBarcodeX (887/10) 100 (67/10) 1 ≠
      specComputeLeftAlignedX (887/10) 100 (67/10) 1 := by
  have e1 : (100 : ℚ) - 887/10 - 5 = 63/10 := by norm_num
  have e2 : max (5 : ℚ) (63/10) = 63/10 := max_eq_right (by norm_num)
  have e3 : min ((63 : ℚ)/10) (67/10) = 63/10 := min_eq_left (by norm_num)
  have e2' : max (5 : ℚ) (67/10) = 67/10 := max_eq_right (by norm_num)
  have e3' : min ((63 : ℚ)/10) (67/10) = 63/10 := min_eq_left (by norm_num)
  have hsrc : (calculateLeftAlignedBarcodeX (887/10) 100 (67/10) 1).wasClamped
      = decide ((1 : ℚ)/2 < |max 5 (min (max 5 ((100 : ℚ) - 887/10 - 5)) (67/10)) - 67/10|) :=
    rfl
  have hsrc2 : (calculateLeftAlignedBarcodeX (887/10) 100 (67/10) 1).wasClamped = false := by
    rw [hsrc, e1, e2, e3, e2]
    simp only [decide_eq_false_iff_not, not_lt]
    rw [show (63 : ℚ)/10 - 67/10 = -(4/10) from by norm_num, abs_neg,
      abs_of_nonneg (by norm_num : (0 : ℚ) ≤ 4/10)]
    norm_num
  have hspec : (specComputeLeftAlignedX (887/10) 100 (67/10) 1).wasClamped
      = decide ((1 : ℚ)/2 <
          |((jsRound (min (max 5 ((100 : ℚ) - 887/10 - 5)) (max 5 (67/10))) : ℤ) : ℚ) - 67/10|) :=
    rfl
  have hround : jsRound ((63 : ℚ)/10) = 6 := by unfold jsRound; norm_num
  have hspec2 : (specComputeLeftAlignedX (887/10) 100 (67/10) 1).wasClamped = true := by
    rw [hspec, e1, e2, e2', e3', hround]
    simp only [decide_eq_true_eq]
    rw [show ((6 : ℤ) : ℚ) - 67/10 = -(7/10) from by norm_num, abs_neg,
      abs_of_nonneg (by norm_num : (0 : ℚ) ≤ 7/10)]
    norm_num
  intro hcontra
  rw [hcontra, hspec2] at hsrc2
  exact Bool.noConfusion hsrc2

/-- Sample layout record for concrete witnesses. -/
def sampleLayout : LayoutSettings :=
  { x := 5, y := 5, height := 10, scale := .fin 1, width := 30, fontSize := 8 }

/-- Sample label settings with two configured serial-number routing rules,
for concrete witnesses. -/
def sampleSettings : LabelSettings :=
  { widthMm := 48, heightMm := 30, spacing := 2, barcodeHeight := 10,
    barcodeType := "CODE128",
    prefixMappings :=
      [("SSV", { title := "Dual Band", labelType := "dualBand" }),
       ("TRI", { title := "Tri Band", labelType := "triBand" })],
    titleLayout := sampleLayout, barcode1Layout := sampleLayout,
    serialText1Layout := sampleLayout, barcode2Layout := sampleLayout,
    serialText2Layout := sampleLayout,
    calibrationOffsetXmm := none, calibrationOffsetYmm := none }

/-- Sample mid-session state: first serial accepted, waiting for the second
scan, for concrete witnesses. -/
def sampleStep2State : ScanState :=
  { leftSerial := "SSV001", rightSerial := "", detectedType := some "dualBand",
    detectedPrefix := some "SSV", leftValidation := .success, rightValidation := .idle,
    errorMessage := "", backendNotice := "", step := 2, isPrinting := false,
    lastCompletedLeft := "SSV001", lastCompletedRight := "" }

/-- C2: when both serials have passed validation and the printer transport
call rejects, the second field is marked `error` with the formatted
message, the error sound follows the scan-success sound, the error counter
is incremented exactly once, `isPrinting` ends false, and the session is
not reset: serials, detected prefix/type and step 2 survive; no history
entry, no print counter, no backend submission. -/
theorem c2_printFailurePreservesSession (settings : LabelSettings) (emsg : String)
    (st : ScanState) (value : String) (prefixKey : String) (m : PrefixMapping)
    (dp dt : String)
    (hprint : st.isPrinting = false)
    (hdp : st.detectedPrefix = some dp)
    (hdt : st.detectedType = some dt)
    (hstep : st.step = 2)
    (hnorm : normalizeSerial value = value)
    (hdup : value ≠ st.lastCompletedRight)
    (hlen : ¬ value.data.length < 3)
    (hmap : getPrefixMapping settings value = some (prefixKey, m))
    (htype : m.labelType = dt) :
    (processRightSerial settings true (Except.error emsg) st value).1.rightValidation
        = FieldValidation.error ∧
    (processRightSerial settings true (Except.error emsg) st value).1.errorMessage
        = formatPrinterError emsg ∧
    (processRightSerial settings true (Except.error emsg) st value).2.sounds
        = ["success", "error"] ∧
    (processRightSerial settings true (Except.error emsg) st value).2.errors = 1 ∧
    (processRightSerial settings true (Except.error emsg) st value).1.isPrinting = false ∧
    (processRightSerial settings true (Except.error emsg) st value).1.leftSerial
        = st.leftSerial ∧
    (processRightSerial settings true (Except.error emsg) st value).1.rightSerial
        = st.rightSerial ∧
    (processRightSerial settings true (Except.error emsg) st value).1.detectedPrefix
        = st.detectedPrefix ∧
    (processRightSerial settings true (Except.error emsg) st value).1.detectedType
        = st.detectedType ∧
    (processRightSerial settings true (Except.error emsg) st value).1.step = 2 ∧
    (processRightSerial settings true (Except.error emsg) st value).2.history = [] ∧
    (processRightSerial settings true (Except.error emsg) st value).2.prints = 0 ∧
    (processRightSerial settings true (Except.error emsg) st value).2.typePrints = [] ∧
    (processRightSerial settings true (Except.error emsg) st value).2.submits = 0 := by
  have hred : processRightSerial settings true (Except.error emsg) st value =
      ({ st with
          lastCompletedRight := value
          rightSerial := if value ≠ value then value else st.rightSerial
          rightValidation := .error
          errorMessage := formatPrinterError emsg
          backendNotice := ""
          isPrinting := false },
       { sounds := ["success", "error"], logs := 1, scans := 1,
         typeScans := [(dp, dt)], errors := 1 }) := by
    simp only [processRightSerial, hprint, hnorm, hdp, hdt, if_neg hdup, if_neg hlen, hmap,
      htype, Bool.false_eq_true, if_false, ne_eq, not_true_eq_false, Bool.not_true]
  rw [hred]
  refine ⟨rfl, rfl, rfl, rfl, rfl, rfl, by simp, hdp ▸ rfl, hdt ▸ rfl, hstep ▸ rfl,
    rfl, rfl, rfl, rfl⟩

/-- Witness for C2 at a concrete input: both serials route to `dualBand`,
the transport rejects with a USB error message. -/
theorem c2_witness :
    (sampleStep2State.isPrinting = false ∧
      sampleStep2State.detectedPrefix = some "SSV" ∧
      sampleStep2State.detectedType = some "dualBand" ∧
      sampleStep2State.step = 2 ∧
      normalizeSerial "SSV002" = "SSV002" ∧
      "SSV002" ≠ sampleStep2State.lastCompletedRight ∧
      ¬ ("SSV002" : String).data.length < 3 ∧
      getPrefixMapping sampleSettings "SSV002"
        = some ("SSV", { title := "Dual Band", labelType := "dualBand" }) ∧
      PrefixMapping.labelType { title := "Dual Band", labelType := "dualBand" } = "dualBand") ∧
    ((processRightSerial sampleSettings true (Except.error "USB transfer failed")
          sampleStep2State "SSV002").1.rightValidation = FieldValidation.error ∧
      (processRightSerial sampleSettings true (Except.error "USB transfer failed")
          sampleStep2State "SSV002").1.errorMessage
        = formatPrinterError "USB transfer failed" ∧
      (processRightSerial sampleSettings true (Except.error "USB transfer failed")
          sampleStep2State "SSV002").2.sounds = ["success", "error"] ∧
      (processRightSerial sampleSettings true (Except.error "USB transfer failed")
          sampleStep2State "SSV002").2.errors = 1 ∧
      (processRightSerial sampleSettings true (Except.error "USB transfer failed")
          sampleStep2State "SSV002").1.isPrinting = false ∧
      (processRightSerial sampleSettings true (Except.error "USB transfer failed")
          sampleStep2State "SSV002").1.leftSerial = sampleStep2State.leftSerial ∧
      (processRightSerial sampleSettings true (Except.error "USB transfer failed")
          sampleStep2State "SSV002").1.rightSerial = sampleStep2State.rightSerial ∧
      (processRightSerial sampleSettings true (Except.error "USB transfer failed")
          sampleStep2State "SSV002").1.detectedPrefix = sampleStep2State.detectedPrefix ∧
      (processRightSerial sampleSettings true (Except.error "USB transfer failed")
          sampleStep2State "SSV002").1.detectedType = sampleStep2State.detectedType ∧
      (processRightSerial sampleSettings true (Except.error "USB transfer failed")
          sampleStep2State "SSV002").1.step = 2 ∧
      (processRightSerial sampleSettings true (Except.error "USB transfer failed")
          sampleStep2State "SSV002").2.history = [] ∧
      (processRightSerial sampleSettings true (Except.error "USB transfer failed")
          sampleStep2State "SSV002").2.prints = 0 ∧
      (processRightSerial sampleSettings true (Except.error "USB transfer failed")
          sampleStep2State "SSV002").2.typePrints = [] ∧
      (processRightSerial sampleSettings true (Except.error "USB transfer failed")
          sampleStep2State "SSV002").2.submits = 0) :=
  ⟨⟨rfl, rfl, rfl, rfl, rfl, by decide, by decide, by decide, rfl⟩,
    c2_printFailurePreservesSession sampleSettings "USB transfer failed" sampleStep2State
      "SSV002" "SSV" { title := "Dual Band", labelType := "dualBand" } "SSV" "dualBand"
      rfl rfl rfl rfl rfl (by decide) (by decide) (by decide) rfl⟩

theorem lookup_map_replace (k : String) (v : PrefixMapping) :
    ∀ m : List (String × PrefixMapping), m.any (fun e => e.1 == k) = true →
      (m.map (fun e => if e.1 == k then (k, v) else e)).lookup k = some v := by
  intro m
  induction m with
  | nil => intro h; simp at h
  | cons e es ih =>
    intro h
    rcases e with ⟨k', v'⟩
    by_cases hk : k' = k
    · subst hk
      simp [List.lookup_cons]
    · have hk2 : ((k', v').1 == k) = false := by
        simp only [beq_eq_false_iff_ne, ne_eq]
        exact hk
      have h' : es.any (fun e => e.1 == k) = true := by
        simp only [List.any_cons, hk2, Bool.false_or] at h
        exact h
      have hkk : (k == k') = false := by
        simp only [beq_eq_false_iff_ne, ne_eq]
        exact fun hc => hk hc.symm
      simp only [List.map_cons, hk2, Bool.false_eq_true, if_false, List.lookup_cons, hkk]
      exact ih h'

theorem lookup_map_replace_other {k k' : String} (v : PrefixMapping) (hne : k' ≠ k) :
    ∀ m : List (String × PrefixMapping),
      (m.map (fun e => if e.1 == k then (k, v) else e)).lookup k' = m.lookup k' := by
  intro m
  induction m with
  | nil => rfl
  | cons e es ih =>
    rcases e with ⟨k1, v1⟩
    by_cases hk : k1 = k
    · subst hk
      have h1 : ((k1, v1).1 == k1) = true := by simp
      have h2 : (k' == k1) = false := by
        simp only [beq_eq_false_iff_ne, ne_eq]
        exact hne
      simp only [List.map_cons, h1, if_true, List.lookup_cons, h2]
      exact ih
    · have h1 : ((k1, v1).1 == k) = false := by
        simp only [beq_eq_false_iff_ne, ne_eq]
        exact hk
      simp only [List.map_cons, h1, Bool.false_eq_true, if_false, List.lookup_cons]
      cases hkc : (k' == k1) with
      | true => rfl
      | false => exact ih

theorem lookup_append_single_self (k : String) (v : PrefixMapping) :
    ∀ m : List (String × PrefixMapping), m.any (fun e => e.1 == k) = false →
      (m ++ [(k, v)]).lookup k = some v := by
  intro m
  induction m with
  | nil => simp [List.lookup]
  | cons e es ih =>
    intro h
    rcases e with ⟨k1, v1⟩
    simp only [List.any_cons, Bool.or_eq_false_iff] at h
    have h2 : (k == k1) = false := by
      simp only [beq_eq_false_iff_ne, ne_eq]
      intro hc
      rw [hc] at h
      simp at h
    simp only [List.cons_append, List.lookup_cons, h2]
    exact ih h.2

theorem lookup_append_single_other {k k' : String} (v : PrefixMapping) (hne : k' ≠ k) :
    ∀ m : List (String × PrefixMapping), (m ++ [(k, v)]).lookup k' = m.lookup k' := by
  intro m
  induction m with
  | nil =>
    have h2 : (k' == k) = false := by
      simp only [beq_eq_false_iff_ne, ne_eq]
      exact hne
    simp [List.lookup, h2]
  | cons e es ih =>
    rcases e with ⟨k1, v1⟩
    simp only [List.cons_append, List.lookup_cons]
    cases hkc : (k' == k1) with
    | true => rfl
    | false => exact ih

theorem lookup_mapSet_self (acc : List (String × PrefixMapping)) (k : String) (v : PrefixMapping) :
    (mapSet acc k v).lookup k = some v := by
  unfold mapSet
  by_cases hany : acc.any (fun e => e.1 == k) = true
  · rw [if_pos hany]
    exact lookup_map_replace k v acc hany
  · rw [if_neg hany]
    refine lookup_append_single_self k v acc ?_
    cases h : acc.any (fun e => e.1 == k) with
    | true => exact absurd h hany
    | false => rfl

theorem lookup_mapSet_other (acc : List (String × PrefixMapping)) {k k' : String}
    (v : PrefixMapping) (hne : k' ≠ k) :
    (mapSet acc k v).lookup k' = acc.lookup k' := by
  unfold mapSet
  by_cases hany : acc.any (fun e => e.1 == k) = true
  · rw [if_pos hany]
    exact lookup_map_replace_other v hne acc
  · rw [if_neg hany]
    exact lookup_append_single_other v hne acc

theorem lookup_foldl_mapSet (p : String) :
    ∀ (l acc : List (String × PrefixMapping)),
      ((l.foldl (fun a x => mapSet a x.1 x.2) acc).lookup p) =
        (match (l.filter (fun e => e.1 == p)).getLast? with
         | some e => some e.2
         | none => acc.lookup p) := by
  intro l
  induction l with
  | nil => intro acc; rfl
  | cons e l ih =>
    intro acc
    rcases e with ⟨k, v⟩
    rw [List.foldl_cons]
    rw [ih (mapSet acc k v)]
    by_cases hk : k = p
    · subst hk
      have hf : ((k, v) :: l).filter (fun e => e.1 == k) =
          (k, v) :: l.filter (fun e => e.1 == k) := by
        simp [List.filter_cons]
      rw [hf]
      cases hfl : l.filter (fun e => e.1 == k) with
      | nil =>
        simp only [List.getLast?_singleton]
        exact lookup_mapSet_self acc k v
      | cons hd tl => rfl
    · have hkb : ((k, v).1 == p) = false := by
        simp only [beq_eq_false_iff_ne, ne_eq]
        exact hk
      have hf : ((k, v) :: l).filter (fun e => e.1 == p) =
          l.filter (fun e => e.1 == p) := by
        simp [List.filter_cons, hkb]
      rw [hf]
      cases hfl : l.filter (fun e => e.1 == p) with
      | nil =>
        simp only [List.getLast?_nil]
        exact lookup_mapSet_other acc v (fun hc => hk hc.symm)
      | cons hd tl => rfl

/-- C10: the title lookup inside `generateCPCL` is an exact map lookup of
the prefix argument (only entries whose key equals the argument matter —
no string-prefix matching), a missing key or an empty stored title falls
back to the literal `"Label"`, generation always succeeds, and the title
TEXT line of the document carries the resolved title. -/
theorem c10_titleLookupExact (s : LabelSettings) (l r p : String) :
    resolveTitle s.prefixMappings p
        = resolveTitle (s.prefixMappings.filter (fun e => e.1 == p)) p ∧
    ((∀ e ∈ s.prefixMappings, e.1 ≠ p) → resolveTitle s.prefixMappings p = "Label") ∧
    (∀ m : PrefixMapping, (jsMapOf s.prefixMappings).lookup p = some m → m.title = "" →
      resolveTitle s.prefixMappings p = "Label") ∧
    (generateCPCLLines s l r p).get? 3 =
      some ("TEXT 4 0 "
        ++ intToStr (mmToDots ((s.titleLayout.x : ℚ) + s.calibrationOffsetXmm.getD 0)) ++ " "
        ++ intToStr (mmToDots ((s.titleLayout.y : ℚ) + s.calibrationOffsetYmm.getD 0)) ++ " "
        ++ resolveTitle s.prefixMappings p) := by
  refine ⟨?_, ?_, ?_, rfl⟩
  · unfold resolveTitle jsMapOf
    rw [lookup_foldl_mapSet p s.prefixMappings [],
      lookup_foldl_mapSet p (s.prefixMappings.filter (fun e => e.1 == p)) []]
    simp only [List.filter_filter, Bool.and_self]
  · intro h
    unfold resolveTitle jsMapOf
    rw [lookup_foldl_mapSet p s.prefixMappings []]
    have hnil : s.prefixMappings.filter (fun e => e.1 == p) = [] := by
      rw [List.filter_eq_nil_iff]
      intro e he
      simp only [beq_eq_false_iff_ne, ne_eq, Bool.not_eq_true]
      exact fun hc => h e he (by simpa using hc)
    rw [hnil]
    rfl
  · intro m hm ht
    unfold resolveTitle
    rw [hm]
    show (if m.title = "" then "Label" else m.title) = "Label"
    rw [if_pos ht]

/-- Witness for C10 at a concrete input: the prefix `"SS"` is a proper
string-prefix of the configured key `"SSV"` but no exact key, so the title
falls back to `"Label"` (a prefix-matching lookup would have found
`"Dual Band"`). -/
theorem c10_witness :
    (∀ e ∈ sampleSettings.prefixMappings, e.1 ≠ "SS") ∧
    resolveTitle sampleSettings.prefixMappings "SS" = "Label" :=
  ⟨by decide,
    (c10_titleLookupExact sampleSettings "SSV001" "SSV002" "SS").2.1 (by decide)⟩

instance (s : String) : Decidable (noNL s) := by unfold noNL; infer_instance

instance (s : String) : Decidable (noCRLF s) := by unfold noCRLF; infer_instance

theorem noNL_cpclToken (u : String) : noNL (getBarcodeMapping u).cpclToken := by
  unfold getBarcodeMapping
  cases h : BARCODE_MAPPINGS.lookup (toUpperCase u) with
  | none => decide
  | some m =>
    have hmem := mem_of_lookup_eq_some h
    simp only [BARCODE_MAPPINGS, List.mem_cons, List.not_mem_nil, or_false] at hmem
    rcases hmem with h1|h1|h1|h1|h1|h1|h1|h1 <;>
      (rw [Prod.mk.injEq] at h1
       obtain ⟨-, rfl⟩ := h1
       decide)

theorem print_beq_false {y : String} (h : y ≠ "PRINT") : (y == "PRINT") = false := by
  cases hb : (y == "PRINT") with
  | false => rfl
  | true => exact absurd (eq_of_beq hb) h

theorem bfalse_header (a : String) :
    ['B','A','R','C','O','D','E'].isPrefixOf (("! 0 200 200 " ++ a ++ " 1").data) = false := by
  simp only [String.data_append, List.append_assoc]
  simp [List.isPrefixOf]

theorem bfalse_pagewidth (a : String) :
    ['B','A','R','C','O','D','E'].isPrefixOf (("PAGE-WIDTH " ++ a).data) = false := by
  simp only [String.data_append, List.append_assoc]
  simp [List.isPrefixOf]

theorem bfalse_setmag (a b : String) :
    ['B','A','R','C','O','D','E'].isPrefixOf (("SETMAG " ++ a ++ " " ++ b).data) = false := by
  simp only [String.data_append, List.append_assoc]
  simp [List.isPrefixOf]

theorem bfalse_text4 (a b c : String) :
    ['B','A','R','C','O','D','E'].isPrefixOf
      (("TEXT 4 0 " ++ a ++ " " ++ b ++ " " ++ c).data) = false := by
  simp only [String.data_append, List.append_assoc]
  simp [List.isPrefixOf]

theorem bfalse_text7 (a b c : String) :
    ['B','A','R','C','O','D','E'].isPrefixOf
      (("TEXT 7 0 " ++ a ++ " " ++ b ++ " " ++ c).data) = false := by
  simp only [String.data_append, List.append_assoc]
  simp [List.isPrefixOf]

theorem btrue_barcode (a b c d e f g : String) :
    ['B','A','R','C','O','D','E'].isPrefixOf
      (("BARCODE " ++ a ++ " " ++ b ++ " " ++ c ++ " " ++ d ++ " " ++ e ++ " " ++ f ++ " "
        ++ g).data) = true := by
  simp only [String.data_append, List.append_assoc]
  simp [List.isPrefixOf]

theorem qfalse_header (a : String) : (("! 0 200 200 " ++ a ++ " 1") == "PRINT") = false := by
  apply print_beq_false
  intro heq
  have hd := congrArg String.data heq
  simp only [String.data_append, List.append_assoc] at hd
  simp at hd

theorem qfalse_pagewidth (a : String) : (("PAGE-WIDTH " ++ a) == "PRINT") = false := by
  apply print_beq_false
  intro heq
  have hd := congrArg String.data heq
  simp only [String.data_append, List.append_assoc] at hd
  simp at hd

theorem qfalse_setmag (a b : String) :
    (("SETMAG " ++ a ++ " " ++ b) == "PRINT") = false := by
  apply print_beq_false
  intro heq
  have hd := congrArg String.data heq
  simp only [String.data_append, List.append_assoc] at hd
  simp at hd

theorem qfalse_text4 (a b c : String) :
    (("TEXT 4 0 " ++ a ++ " " ++ b ++ " " ++ c) == "PRINT") = false := by
  apply print_beq_false
  intro heq
  have hd := congrArg String.data heq
  simp only [String.data_append, List.append_assoc] at hd
  simp at hd

theorem qfalse_text7 (a b c : String) :
    (("TEXT 7 0 " ++ a ++ " " ++ b ++ " " ++ c) == "PRINT") = false := by
  apply print_beq_false
  intro heq
  have hd := congrArg String.data heq
  simp only [String.data_append, List.append_assoc] at hd
  simp at hd

theorem qfalse_barcode (a b c d e f g : String) :
    (("BARCODE " ++ a ++ " " ++ b ++ " " ++ c ++ " " ++ d ++ " " ++ e ++ " " ++ f ++ " " ++ g)
        == "PRINT") = false := by
  apply print_beq_false
  intro heq
  have hd := congrArg String.data heq
  simp only [String.data_append, List.append_assoc] at hd
  simp at hd

/-- C1: `generateCPCL` is the newline-join of, in order: the `! 0 200 200
<heightDots> 1` header, `PAGE-WIDTH <widthDots>`, the title
SETMAG/TEXT/SETMAG triple, the first BARCODE command carrying the left
serial, its serial-text triple, the second BARCODE command carrying the
right serial, its serial-text triple, and a final `PRINT`; and whenever the
serials and the resolved title contain no CR/LF, the returned string has
exactly two lines starting with `BARCODE` and exactly one `PRINT` line,
which is the last. -/
theorem c1_documentStructure (s : LabelSettings) (l r p : String)
    (hl : noCRLF l) (hr : noCRLF r) (ht : noCRLF (resolveTitle s.prefixMappings p)) :
    splitNL (generateCPCL s l r p) = generateCPCLLines s l r p ∧
    generateCPCLLines s l r p =
      [ "! 0 200 200 " ++ intToStr (mmToDots (s.heightMm : ℚ)) ++ " 1",
        "PAGE-WIDTH " ++ intToStr (mmToDots (s.widthMm : ℚ)),
        "SETMAG " ++ intToStr (clampScale s.titleLayout.scale) ++ " "
          ++ intToStr (clampScale s.titleLayout.scale),
        "TEXT 4 0 " ++ intToStr (mmToDots ((s.titleLayout.x : ℚ) + s.calibrationOffsetXmm.getD 0))
          ++ " " ++ intToStr (mmToDots ((s.titleLayout.y : ℚ) + s.calibrationOffsetYmm.getD 0))
          ++ " " ++ resolveTitle s.prefixMappings p,
        "SETMAG 1 1",
        "BARCODE " ++ (getBarcodeMapping s.barcodeType).cpclToken ++ " "
          ++ intToStr (getBarcodeMapping s.barcodeType).recommendedWidth ++ " "
          ++ intToStr (getBarcodeMapping s.barcodeType).recommendedRatio ++ " "
          ++ intToStr (calculateBarcodeHeight (JSNum.fin (s.barcode1Layout.height : ℚ))
                s.barcode1Layout.scale) ++ " "
          ++ intToStr (calculateLeftAlignedBarcodeX
                ((estimateBarcodeWidthDots (l.data.length : ℚ)
                    ((getBarcodeMapping s.barcodeType).recommendedWidth : ℚ)
                    ((getBarcodeMapping s.barcodeType).recommendedRatio : ℚ) : ℤ) : ℚ)
                ((mmToDots (s.widthMm : ℚ) : ℤ) : ℚ)
                ((mmToDots ((s.barcode1Layout.x : ℚ) + s.calibrationOffsetXmm.getD 0) : ℤ) : ℚ)
                1).adjustedX ++ " "
          ++ intToStr (mmToDots ((s.barcode1Layout.y : ℚ) + s.calibrationOffsetYmm.getD 0))
          ++ " " ++ l,
        "SETMAG " ++ intToStr (clampScale s.serialText1Layout.scale) ++ " "
          ++ intToStr (clampScale s.serialText1Layout.scale),
        "TEXT 7 0 "
          ++ intToStr (mmToDots ((s.serialText1Layout.x : ℚ) + s.calibrationOffsetXmm.getD 0))
          ++ " "
          ++ intToStr (mmToDots ((s.serialText1Layout.y : ℚ) + s.calibrationOffsetYmm.getD 0))
          ++ " " ++ l,
        "SETMAG 1 1",
        "BARCODE " ++ (getBarcodeMapping s.barcodeType).cpclToken ++ " "
          ++ intToStr (getBarcodeMapping s.barcodeType).recommendedWidth ++ " "
          ++ intToStr (getBarcodeMapping s.barcodeType).recommendedRatio ++ " "
          ++ intToStr (calculateBarcodeHeight (JSNum.fin (s.barcode2Layout.height : ℚ))
                s.barcode2Layout.scale) ++ " "
          ++ intToStr (calculateLeftAlignedBarcodeX
                ((estimateBarcodeWidthDots (r.data.length : ℚ)
                    ((getBarcodeMapping s.barcodeType).recommendedWidth : ℚ)
                    ((getBarcodeMapping s.barcodeType).recommendedRatio : ℚ) : ℤ) : ℚ)
                ((mmToDots (s.widthMm : ℚ) : ℤ) : ℚ)
                ((mmToDots ((s.barcode2Layout.x : ℚ) + s.calibrationOffsetXmm.getD 0) : ℤ) : ℚ)
                2).adjustedX ++ " "
          ++ intToStr (mmToDots ((s.barcode2Layout.y : ℚ) + s.calibrationOffsetYmm.getD 0))
          ++ " " ++ r,
        "SETMAG " ++ intToStr (clampScale s.serialText2Layout.scale) ++ " "
          ++ intToStr (clampScale s.serialText2Layout.scale),
        "TEXT 7 0 "
          ++ intToStr (mmToDots ((s.serialText2Layout.x : ℚ) + s.calibrationOffsetXmm.getD 0))
          ++ " "
          ++ intToStr (mmToDots ((s.serialText2Layout.y : ℚ) + s.calibrationOffsetYmm.getD 0))
          ++ " " ++ r,
        "SETMAG 1 1",
        "PRINT" ] ∧
    (splitNL (generateCPCL s l r p)).countP
        (fun ln => ("BARCODE" : String).data.isPrefixOf ln.data) = 2 ∧
    (splitNL (generateCPCL s l r p)).countP (fun ln => ln == "PRINT") = 1 ∧
    (splitNL (generateCPCL s l r p)).getLast? = some "PRINT" := by
  have hnl : ∀ ln ∈ generateCPCLLines s l r p, noNL ln := by
    intro ln hln
    simp only [generateCPCLLines, List.mem_cons, List.not_mem_nil, or_false] at hln
    rcases hln with rfl|rfl|rfl|rfl|rfl|rfl|rfl|rfl|rfl|rfl|rfl|rfl|rfl|rfl
    all_goals repeat' apply noNL_append
    all_goals
      first
        | exact noNL_intToStr _
        | exact noNL_of_noCRLF hl
        | exact noNL_of_noCRLF hr
        | exact noNL_of_noCRLF ht
        | exact noNL_cpclToken _
        | decide
  have hne : generateCPCLLines s l r p ≠ [] := by
    simp only [generateCPCLLines]
    exact List.cons_ne_nil _ _
  have h1 : splitNL (generateCPCL s l r p) = generateCPCLLines s l r p :=
    splitNL_joinLines _ hne hnl
  refine ⟨h1, rfl, ?_, ?_, ?_⟩
  · rw [h1]
    simp only [generateCPCLLines]
    simp only [List.countP_cons, List.countP_nil, bfalse_header, bfalse_pagewidth,
      bfalse_setmag, bfalse_text4, bfalse_text7, btrue_barcode,
      show ['B','A','R','C','O','D','E'].isPrefixOf ("SETMAG 1 1" : String).data = false
        from by decide,
      show ['B','A','R','C','O','D','E'].isPrefixOf ("PRINT" : String).data = false
        from by decide]
    decide
  · rw [h1]
    simp only [generateCPCLLines]
    simp only [List.countP_cons, List.countP_nil, qfalse_header, qfalse_pagewidth,
      qfalse_setmag, qfalse_text4, qfalse_text7, qfalse_barcode,
      show (("SETMAG 1 1" : String) == "PRINT") = false from by decide,
      show (("PRINT" : String) == "PRINT") = true from by decide]
    decide
  · rw [h1]
    simp only [generateCPCLLines]
    rfl

/-- Witness for C1 at concrete CR/LF-free serials and title. -/
theorem c1_witness :
    (noCRLF "SSV001" ∧ noCRLF "SSV002" ∧
      noCRLF (resolveTitle sampleSettings.prefixMappings "SSV")) ∧
    (splitNL (generateCPCL sampleSettings "SSV001" "SSV002" "SSV")).countP
        (fun ln => ("BARCODE" : String).data.isPrefixOf ln.data) = 2 ∧
    (splitNL (generateCPCL sampleSettings "SSV001" "SSV002" "SSV")).countP
        (fun ln => ln == "PRINT") = 1 ∧
    (splitNL (generateCPCL sampleSettings "SSV001" "SSV002" "SSV")).getLast? = some "PRINT" :=
  ⟨⟨by decide, by decide, by decide⟩,
    (c1_documentStructure sampleSettings "SSV001" "SSV002" "SSV"
        (by decide) (by decide) (by decide)).2.2⟩

theorem processLeft_dup (settings : LabelSettings) (st : ScanState) (v : String)
    (h : normalizeSerial v = st.lastCompletedLeft) :
    processLeftSerial settings st v = (st, Effects.empty) := by
  simp only [processLeftSerial, if_pos h]

theorem processRight_dup (settings : LabelSettings) (connected : Bool)
    (pr : Except String Unit) (st : ScanState) (v : String)
    (h : normalizeSerial v = st.lastCompletedRight) :
    processRightSerial settings connected pr st v = (st, Effects.empty) := by
  simp only [processRightSerial]
  by_cases hpr : st.isPrinting = true
  · rw [if_pos hpr]
  · rw [if_neg hpr, if_pos h]

theorem processRight_unset (settings : LabelSettings) (connected : Bool)
    (pr : Except String Unit) (st : ScanState) (v : String)
    (h : st.detectedPrefix = none) :
    processRightSerial settings connected pr st v = (st, Effects.empty) := by
  simp only [processRightSerial, h]
  by_cases hpr : st.isPrinting = true
  · rw [if_pos hpr]
  · rw [if_neg hpr]
    by_cases hdup : normalizeSerial v = st.lastCompletedRight
    · rw [if_pos hdup]
    · rw [if_neg hdup]

/-- C8 (amended: for both fields the suppressed or repeated completion
contributes no effects and leaves the state unchanged, and the "exactly one
validation pass, one sound, one counter increment" total holds for the left
field — a processed right-field completion legitimately emits the scan
sound plus a print-complete or error sound and increments the scan counter
plus a print or error counter): completing a scan whose normalized value
equals the field's remembered last-completed value is a no-op for either
field; two consecutive completions normalizing to the same string produce
exactly the first completion's effects (the second contributes none and
changes nothing); and on the left field a processed completion's effects
are exactly one sound, one counter increment and one log. -/
theorem c8_duplicateSuppression (settings : LabelSettings) (connected : Bool)
    (pr : Except String Unit) (st : ScanState) (v w : String)
    (hw : normalizeSerial w = normalizeSerial v) :
    (normalizeSerial v = st.lastCompletedLeft →
        processLeftSerial settings st v = (st, Effects.empty)) ∧
    (normalizeSerial v = st.lastCompletedRight →
        processRightSerial settings connected pr st v = (st, Effects.empty)) ∧
    processLeftSerial settings (processLeftSerial settings st v).1 w
        = ((processLeftSerial settings st v).1, Effects.empty) ∧
    processRightSerial settings connected pr
        (processRightSerial settings connected pr st v).1 w
      = ((processRightSerial settings connected pr st v).1, Effects.empty) ∧
    (normalizeSerial v ≠ st.lastCompletedLeft → ¬(normalizeSerial v).data.length < 3 →
        (processLeftSerial settings st v).2.sounds.length = 1 ∧
        (processLeftSerial settings st v).2.scans +
          (processLeftSerial settings st v).2.errors = 1 ∧
        (processLeftSerial settings st v).2.logs = 1) := by
  refine ⟨fun h => processLeft_dup settings st v h,
          fun h => processRight_dup settings connected pr st v h, ?_, ?_, ?_⟩
  · by_cases hdup : normalizeSerial v = st.lastCompletedLeft
    · rw [processLeft_dup settings st v hdup]
      exact processLeft_dup settings st w (by rw [hw]; exact hdup)
    · by_cases hlen : (normalizeSerial v).data.length < 3
      · have hfirst : processLeftSerial settings st v = (st, Effects.empty) := by
          simp only [processLeftSerial, if_neg hdup, if_pos hlen]
        rw [hfirst]
        show processLeftSerial settings st w = (st, Effects.empty)
        have hdup' : ¬ normalizeSerial w = st.lastCompletedLeft := by rw [hw]; exact hdup
        have hlen' : (normalizeSerial w).data.length < 3 := by rw [hw]; exact hlen
        simp only [processLeftSerial, if_neg hdup', if_pos hlen']
      · have hfst : (processLeftSerial settings st v).1.lastCompletedLeft
            = normalizeSerial v := by
          simp only [processLeftSerial, if_neg hdup, if_neg hlen]
          cases hm : getPrefixMapping settings (normalizeSerial v) with
          | none => rfl
          | some e => rcases e with ⟨prefixKey, mapping⟩; rfl
        exact processLeft_dup settings _ w (by rw [hw]; exact hfst.symm)
  · by_cases hpr : st.isPrinting = true
    · have hfirst : processRightSerial settings connected pr st v = (st, Effects.empty) := by
        simp only [processRightSerial, if_pos hpr]
      rw [hfirst]
      show processRightSerial settings connected pr st w = (st, Effects.empty)
      simp only [processRightSerial, if_pos hpr]
    · by_cases hdup : normalizeSerial v = st.lastCompletedRight
      · rw [processRight_dup settings connected pr st v hdup]
        exact processRight_dup settings connected pr st w (by rw [hw]; exact hdup)
      · cases hdp : st.detectedPrefix with
        | none =>
          rw [processRight_unset settings connected pr st v hdp]
          exact processRight_unset settings connected pr st w hdp
        | some dp =>
          cases hdt : st.detectedType with
          | none =>
            have hfirst : processRightSerial settings connected pr st v
                = (st, Effects.empty) := by
              simp only [processRightSerial, if_neg hpr, if_neg hdup, hdp, hdt]
            rw [hfirst]
            show processRightSerial settings connected pr st w = (st, Effects.empty)
            have hdup' : ¬ normalizeSerial w = st.lastCompletedRight := by rw [hw]; exact hdup
            simp only [processRightSerial, if_neg hpr, if_neg hdup', hdp, hdt]
          | some dt =>
            by_cases hlen : (normalizeSerial v).data.length < 3
            · have hfirst : processRightSerial settings connected pr st v
                  = (st, Effects.empty) := by
                simp only [processRightSerial, if_neg hpr, if_neg hdup, hdp, hdt, if_pos hlen]
              rw [hfirst]
              show processRightSerial settings connected pr st w = (st, Effects.empty)
              have hdup' : ¬ normalizeSerial w = st.lastCompletedRight := by
                rw [hw]; exact hdup
              have hlen' : (normalizeSerial w).data.length < 3 := by rw [hw]; exact hlen
              simp only [processRightSerial, if_neg hpr, if_neg hdup', hdp, hdt, if_pos hlen']
            · cases hm : getPrefixMapping settings (normalizeSerial v) with
              | none =>
                have hlast : (processRightSerial settings connected pr st v).1.lastCompletedRight
                    = normalizeSerial v := by
                  simp only [processRightSerial, if_neg hpr, if_neg hdup, hdp, hdt,
                    if_neg hlen, hm]
                exact processRight_dup settings connected pr _ w (by rw [hw]; exact hlast.symm)
              | some e =>
                rcases e with ⟨prefixKey, mapping⟩
                by_cases hty : mapping.labelType = dt
                · cases connected with
                  | false =>
                    have hlast : (processRightSerial settings false pr st v).1.lastCompletedRight
                        = normalizeSerial v := by
                      simp only [processRightSerial, if_neg hpr, if_neg hdup, hdp, hdt,
                        if_neg hlen, hm, if_neg (not_not_intro hty), Bool.not_false, if_true]
                    exact processRight_dup settings false pr _ w (by rw [hw]; exact hlast.symm)
                  | true =>
                    cases pr with
                    | error emsg =>
                      have hlast : (processRightSerial settings true (Except.error emsg) st
                            v).1.lastCompletedRight = normalizeSerial v := by
                        simp only [processRightSerial, if_neg hpr, if_neg hdup, hdp, hdt,
                          if_neg hlen, hm, if_neg (not_not_intro hty), Bool.not_true,
                          Bool.false_eq_true, if_false]
                      exact processRight_dup settings true (Except.error emsg) _ w
                        (by rw [hw]; exact hlast.symm)
                    | ok u =>
                      have hreset : (processRightSerial settings true (Except.ok u) st v).1
                          = resetFormState := by
                        simp only [processRightSerial, if_neg hpr, if_neg hdup, hdp, hdt,
                          if_neg hlen, hm, if_neg (not_not_intro hty), Bool.not_true,
                          Bool.false_eq_true, if_false]
                      rw [hreset]
                      exact processRight_unset settings true (Except.ok u) resetFormState w rfl
                · have hlast : (processRightSerial settings connected pr st
                        v).1.lastCompletedRight = normalizeSerial v := by
                    simp only [processRightSerial, if_neg hpr, if_neg hdup, hdp, hdt,
                      if_neg hlen, hm, if_pos hty]
                  exact processRight_dup settings connected pr _ w (by rw [hw]; exact hlast.symm)
  · intro hdup hlen
    simp only [processLeftSerial, if_neg hdup, if_neg hlen]
    cases hm : getPrefixMapping settings (normalizeSerial v) with
    | none => exact ⟨rfl, rfl, rfl⟩
    | some e => rcases e with ⟨prefixKey, mapping⟩; exact ⟨rfl, rfl, rfl⟩

/-- C8 counterexample: on the second (right) field a single processed
completion with a successful print plays two sounds (scan success, then
print complete) and increments both the scan and the print counter, so two
consecutive identical completions do not total "exactly one sound and one
counter increment" as the claim states for each scan field. -/
theorem c8_counterexample :
    (processRightSerial sampleSettings true (Except.ok ())
        sampleStep2State "SSV002").2.sounds.length = 2 ∧
    (processRightSerial sampleSettings true (Except.ok ())
        sampleStep2State "SSV002").2.scans = 1 ∧
    (processRightSerial sampleSettings true (Except.ok ())
        sampleStep2State "SSV002").2.prints = 1 ∧
    ¬ (processRightSerial sampleSettings true (Except.ok ())
        sampleStep2State "SSV002").2.sounds.length = 1 := by
  refine ⟨by decide, by decide, by decide, by decide⟩

/-- Witness for C8 at concrete inputs: duplicate no-ops on both fields, the
second of two identical completions contributing nothing on both fields,
and the left field's one-sound/one-counter/one-log totals. -/
theorem c8_witness :
    (normalizeSerial "SSV001" = sampleStep2State.lastCompletedLeft ∧
      processLeftSerial sampleSettings sampleStep2State "SSV001"
        = (sampleStep2State, Effects.empty)) ∧
    (normalizeSerial "SSV002"
        = ({ sampleStep2State with lastCompletedRight := "SSV002" } : ScanState).lastCompletedRight ∧
      processRightSerial sampleSettings true (Except.error "USB transfer failed")
          { sampleStep2State with lastCompletedRight := "SSV002" } "SSV002"
        = ({ sampleStep2State with lastCompletedRight := "SSV002" }, Effects.empty)) ∧
    processLeftSerial sampleSettings
        (processLeftSerial sampleSettings resetFormState "SSV001").1 "SSV001"
      = ((processLeftSerial sampleSettings resetFormState "SSV001").1, Effects.empty) ∧
    processRightSerial sampleSettings true (Except.error "USB transfer failed")
        (processRightSerial sampleSettings true (Except.error "USB transfer failed")
          sampleStep2State "SSV002").1 "SSV002"
      = ((processRightSerial sampleSettings true (Except.error "USB transfer failed")
          sampleStep2State "SSV002").1, Effects.empty) ∧
    (normalizeSerial "SSV001" ≠ resetFormState.lastCompletedLeft ∧
      ¬ (normalizeSerial "SSV001").data.length < 3 ∧
      ((processLeftSerial sampleSettings resetFormState "SSV001").2.sounds.length = 1 ∧
        (processLeftSerial sampleSettings resetFormState "SSV001").2.scans +
          (processLeftSerial sampleSettings resetFormState "SSV001").2.errors = 1 ∧
        (processLeftSerial sampleSettings resetFormState "SSV001").2.logs = 1)) :=
  ⟨⟨by decide,
      (c8_duplicateSuppression sampleSettings true (Except.ok ()) sampleStep2State
          "SSV001" "SSV001" rfl).1 (by decide)⟩,
    ⟨by decide,
      (c8_duplicateSuppression sampleSettings true (Except.error "USB transfer failed")
          { sampleStep2State with lastCompletedRight := "SSV002" }
          "SSV002" "SSV002" rfl).2.1 (by decide)⟩,
    (c8_duplicateSuppression sampleSettings true (Except.ok ()) resetFormState
        "SSV001" "SSV001" rfl).2.2.1,
    (c8_duplicateSuppression sampleSettings true (Except.error "USB transfer failed")
        sampleStep2State "SSV002" "SSV002" rfl).2.2.2.1,
    ⟨by decide, by decide,
      (c8_duplicateSuppression sampleSettings true (Except.ok ()) resetFormState
          "SSV001" "SSV001" rfl).2.2.2.2 (by decide) (by decide)⟩⟩
